import Mathlib

/-! Shallow embedding of the RCN Lead Gen API server (the quota-gated
search pipeline of src/unnamed/part_000): the plan-limit table, the
JavaScript numeric quirks the handler relies on (parseInt yielding NaN,
Math.min, Array.prototype.slice, falsy-or projection), the lazy monthly
usage reset, and the /search handler as a function from a request, a
stored account row, the wall-clock (year, month) and a provider oracle to
its HTTP outcome, the resulting stored usage, and the number of provider
calls issued. -/

namespace MCAProxy

/-- Plan tiers, the keys of PLAN_LIMITS in the source. -/
inductive Plan where
  | pro
  | agency
  | unlimited
  | admin
deriving DecidableEq, Repr

/-- PLAN_LIMITS table; none models the Infinity sentinel of the
unbounded tiers. -/
def PLAN_LIMITS : Plan → Option Int
  | .pro => some 1000
  | .agency => some 2400
  | .unlimited => none
  | .admin => none

/-- A JavaScript number as the handler can observe it in the limit
parameter: an integer, or NaN (parseInt on a non-numeric string). -/
inductive JsNum where
  | nan : JsNum
  | int : Int → JsNum
deriving DecidableEq, Repr

/-- Math.min(a, b) for the clamp at 25: NaN propagates, otherwise min. -/
def jsMin (a : JsNum) (b : Int) : JsNum :=
  match a with
  | .nan => .nan
  | .int v => .int (min v b)

/-- JavaScript addition used + limit where limit may be NaN. -/
def jsAddInt (a : Int) (b : JsNum) : JsNum :=
  match b with
  | .nan => .nan
  | .int v => .int (a + v)

/-- The comparison a > b of the quota check: any comparison with NaN is
false. -/
def jsGt (a : JsNum) (b : Int) : Bool :=
  match a with
  | .nan => false
  | .int v => decide (b < v)

/-- Array.prototype.slice(0, e): NaN converts to 0 (empty slice); a
negative end counts from the end of the array, clamped at 0. -/
def jsSlice0 {α : Type} (xs : List α) (e : JsNum) : List α :=
  match e with
  | .nan => []
  | .int v =>
      if v < 0 then xs.take (xs.length - min xs.length v.natAbs)
      else xs.take v.toNat

/-- JavaScript falsy-or a || dflt for strings: an absent or empty string
falls through to the default. -/
def strOr (a : Option String) (dflt : String) : String :=
  match a with
  | some s => if s = "" then dflt else s
  | none => dflt

/-- JavaScript falsy-or a || null for strings: an absent or empty string
becomes null. -/
def strOrNull (a : Option String) : Option String :=
  match a with
  | some s => if s = "" then none else some s
  | none => none

/-- JavaScript falsy-or rating || null: a zero rating becomes null. The
numeric value is otherwise passed through untouched, so an integer scale
suffices for the embedding. -/
def ratingOrNull (a : Option Int) : Option Int :=
  match a with
  | some v => if v = 0 then none else some v
  | none => none

/-- A place summary as returned by the text-search endpoint: the fields
the handler projects out of each candidate. -/
structure Place where
  name : String
  formatted_address : Option String
  place_id : String
  rating : Option Int
deriving DecidableEq, Repr

/-- The result object of a place-details call (the requested fields,
each possibly absent). -/
structure PlaceDetail where
  formatted_address : Option String
  formatted_phone_number : Option String
  website : Option String
deriving DecidableEq, Repr

/-- A lead in the response body. -/
structure Lead where
  businessName : String
  address : String
  phone : Option String
  website : Option String
  placeId : String
  rating : Option Int
deriving DecidableEq, Repr

/-- Projection of a candidate to its bare summary fields (the details
flag unset, or the per-candidate catch branch of the enrichment). -/
def summaryLead (p : Place) : Lead :=
  { businessName := p.name
    address := strOr p.formatted_address ""
    phone := none
    website := none
    placeId := p.place_id
    rating := ratingOrNull p.rating }

/-- Projection of a candidate whose details call succeeded; d is the
optional result field of the details response. -/
def detailLead (p : Place) (d : Option PlaceDetail) : Lead :=
  { businessName := p.name
    address := strOr (d.bind PlaceDetail.formatted_address) (strOr p.formatted_address "")
    phone := strOrNull (d.bind PlaceDetail.formatted_phone_number)
    website := strOrNull (d.bind PlaceDetail.website)
    placeId := p.place_id
    rating := ratingOrNull p.rating }

/-- A stored account row, with the reset date reduced to the (year,
month) pair the rollover check reads. -/
structure User where
  id : Nat
  plan : Plan
  searches_used : Int
  resetYear : Int
  resetMonth : Int
deriving DecidableEq, Repr

/-- The month-rollover test of getUser and the login handler:
now.getFullYear() > reset.getFullYear() || now.getMonth() > reset.getMonth(). -/
def shouldReset (nowY nowM rY rM : Int) : Bool :=
  decide (rY < nowY) || decide (rM < nowM)

/-- The lazy reset applied on every account read: zero the usage and
advance the reset date to today when the rollover test fires. -/
def applyReset (u : User) (nowY nowM : Int) : User :=
  if shouldReset nowY nowM u.resetYear u.resetMonth then
    { u with searches_used := 0, resetYear := nowY, resetMonth := nowM }
  else u

/-- The provider oracle for one request: outcome of the geocode call
(transport failure, no result, or coordinates), of the text-search call
(transport failure or a candidate list; an absent results field is
already the empty list), and of each per-candidate details call. -/
structure Env where
  geocode : Except String (Option (Int × Int))
  textSearch : Except String (List Place)
  detail : Place → Except String (Option PlaceDetail)

/-- A /search request after token verification and query parsing: the
decoded user id when the token verified, the parseInt result of the
limit parameter, and the details flag. -/
structure Req where
  auth : Option Nat
  limitParam : JsNum
  details : Bool

/-- Observable outcome of one /search request: HTTP status, error
message, result list, the searches_remaining body field, the
searches_used value left in the database row, and how many provider
calls were issued. -/
structure SearchResult where
  status : Nat
  errMsg : Option String
  results : List Lead
  searches_remaining : Option Int
  dbUsed : Option Int
  providerCalls : Nat
deriving DecidableEq, Repr

/-- The quota admission decision the handler applies: reject when the
plan limit is finite and used + limit > planLimit. -/
def quotaAdmits (planLimit : Option Int) (used : Int) (lim : JsNum) : Bool :=
  match planLimit with
  | none => true
  | some l => ! jsGt (jsAddInt used lim) l

/-- One candidate of the enrichment stage: the details call feeds
detailLead, its failure is caught per candidate and degrades to
summaryLead. -/
def enrichOne (env : Env) (p : Place) : Lead :=
  match env.detail p with
  | .ok d => detailLead p d
  | .error _ => summaryLead p

/-- The enrichment stage: with the details flag, each candidate is
enriched independently; without it, all candidates are projected to
summaries. -/
def enrich (env : Env) (details : Bool) (places : List Place) : List Lead :=
  if details then places.map (enrichOne env) else places.map summaryLead

/-- The admitted tail of the handler: geocode, text search, truncation
to the clamped limit, enrichment, debit of the actual count, response.
planLimit is the PLAN_LIMITS entry of the (already reset) account u. -/
def searchAdmitted (env : Env) (details : Bool) (lim : JsNum) (u : User)
    (planLimit : Option Int) : SearchResult :=
  match env.geocode with
  | .error e =>
      { status := 500, errMsg := some e, results := []
        searches_remaining := none, dbUsed := some u.searches_used
        providerCalls := 1 }
  | .ok none =>
      { status := 404, errMsg := some "Location not found", results := []
        searches_remaining := none, dbUsed := some u.searches_used
        providerCalls := 1 }
  | .ok (some _coords) =>
      match env.textSearch with
      | .error e =>
          { status := 500, errMsg := some e, results := []
            searches_remaining := none, dbUsed := some u.searches_used
            providerCalls := 2 }
      | .ok ps =>
          let places := jsSlice0 ps lim
          let actualCount : Int := places.length
          let detailed := enrich env details places
          let newUsed := u.searches_used + actualCount
          { status := 200, errMsg := none, results := detailed
            searches_remaining := planLimit.map (fun l => l - newUsed)
            dbUsed := some newUsed
            providerCalls := 2 + (if details then places.length else 0) }

/-- The 403 quota rejection response of the handler: remaining is the
plan limit minus the usage, with no clamping, both in the message string
and in the searches_remaining body field. -/
def searchReject (u : User) (l : Int) : SearchResult :=
  { status := 403
    errMsg := some ("You only have " ++ toString (l - u.searches_used) ++
      " searches left this month. Reduce your lead count or upgrade your plan.")
    results := []
    searches_remaining := some (l - u.searches_used)
    dbUsed := some u.searches_used
    providerCalls := 0 }

/-- The post-authentication body of the handler for the (already reset)
account u: the quota gate — reject when the plan limit is finite and
used + lim > planLimit — then the provider pipeline. -/
def searchCore (env : Env) (det : Bool) (lim : JsNum) (u : User) : SearchResult :=
  match PLAN_LIMITS u.plan with
  | some l =>
      if jsGt (jsAddInt u.searches_used lim) l then searchReject u l
      else searchAdmitted env det lim u (some l)
  | none => searchAdmitted env det lim u none

/-- The /search handler: token check, account load with lazy reset, then
searchCore. stored is the database row the decoded user id resolves to;
nowY, nowM the wall clock. -/
def search (env : Env) (req : Req) (stored : Option User) (nowY nowM : Int) :
    SearchResult :=
  match req.auth with
  | none =>
      { status := 401, errMsg := some "Unauthorized - please log in"
        results := [], searches_remaining := none
        dbUsed := Option.map User.searches_used stored, providerCalls := 0 }
  | some _ =>
      match stored with
      | none =>
          { status := 401, errMsg := some "User not found", results := []
            searches_remaining := none, dbUsed := none, providerCalls := 0 }
      | some u0 =>
          searchCore env req.details (jsMin req.limitParam 25) (applyReset u0 nowY nowM)

/-- Concrete candidate list used by witnesses. -/
def placesW : List Place :=
  [ { name := "Acme Roofing", formatted_address := some "1 Main St"
      place_id := "p1", rating := some 4 }
  , { name := "Best Roofing", formatted_address := some "2 Oak Ave"
      place_id := "p2", rating := some 5 }
  , { name := "Casa Roofing", formatted_address := none
      place_id := "p3", rating := none } ]

/-- Concrete provider oracle used by witnesses: geocode resolves, the
text search returns three candidates, the details call fails for the
second candidate only. -/
def envW : Env :=
  { geocode := .ok (some (33, -84))
    textSearch := .ok placesW
    detail := fun p =>
      if p.place_id = "p2" then .error "detail transport failure"
      else .ok (some { formatted_address := some "10 Detailed Blvd"
                       formatted_phone_number := some "555-0100"
                       website := some "example.com" }) }

/-- Provider oracle whose geocode call finds no match. -/
def envNF : Env :=
  { geocode := .ok none
    textSearch := .ok []
    detail := fun _ => .ok none }

/-- Account row over the pro quota boundary: 995 used, so a request for
10 more is rejected. -/
def userR : User :=
  { id := 2, plan := .pro, searches_used := 995, resetYear := 2025, resetMonth := 9 }

/-- Account row with usage above its plan limit (reachable after, for
instance, a plan downgrade stored in the plan column). -/
def userOver : User :=
  { id := 4, plan := .pro, searches_used := 1200, resetYear := 2025, resetMonth := 9 }

/-- Provider oracle whose geocode call fails in transport with an
internal diagnostic message. -/
def envErr : Env :=
  { geocode := .error "ECONNRESET upstream socket diagnostic"
    textSearch := .ok []
    detail := fun _ => .ok none }

/-- Concrete account row used by witnesses: pro plan, 990 searches used,
reset date inside the current month (October 2025, zero-based month 9). -/
def userW : User :=
  { id := 1, plan := .pro, searches_used := 990, resetYear := 2025, resetMonth := 9 }

theorem applyReset_eq_self (u : User) (nowY nowM : Int)
    (h : shouldReset nowY nowM u.resetYear u.resetMonth = false) :
    applyReset u nowY nowM = u := by
  simp [applyReset, h]

theorem searchAdmitted_status (env : Env) (details : Bool) (lim : JsNum)
    (u : User) (pl : Option Int) :
    (searchAdmitted env details lim u pl).status = 500 ∨
    (searchAdmitted env details lim u pl).status = 404 ∨
    (searchAdmitted env details lim u pl).status = 200 := by
  cases hg : env.geocode with
  | error e => simp [searchAdmitted, hg]
  | ok og =>
      cases og with
      | none => simp [searchAdmitted, hg]
      | some c =>
          cases ht : env.textSearch with
          | error e => simp [searchAdmitted, hg, ht]
          | ok ps => simp [searchAdmitted, hg, ht]

theorem search_some_eq (env : Env) (uid : Nat) (lp : JsNum) (det : Bool)
    (u0 : User) (nowY nowM : Int) :
    search env ⟨some uid, lp, det⟩ (some u0) nowY nowM =
      searchCore env det (jsMin lp 25) (applyReset u0 nowY nowM) := rfl

theorem quotaAdmits_of_false (pl : Option Int) (used : Int) (lim : JsNum)
    (h : quotaAdmits pl used lim = false) :
    ∃ l, pl = some l ∧ jsGt (jsAddInt used lim) l = true := by
  cases pl with
  | none => simp [quotaAdmits] at h
  | some l => exact ⟨l, rfl, by simpa [quotaAdmits] using h⟩

theorem searchCore_eq_admitted (env : Env) (det : Bool) (lim : JsNum) (u : User)
    (hadm : quotaAdmits (PLAN_LIMITS u.plan) u.searches_used lim = true) :
    searchCore env det lim u = searchAdmitted env det lim u (PLAN_LIMITS u.plan) := by
  unfold searchCore
  cases hpl : PLAN_LIMITS u.plan with
  | none => rfl
  | some l =>
      have h : jsGt (jsAddInt u.searches_used lim) l = false := by
        have h0 := hadm
        rw [hpl] at h0
        simpa [quotaAdmits] using h0
      simp [h]

theorem searchCore_eq_reject (env : Env) (det : Bool) (lim : JsNum) (u : User)
    (l : Int) (hpl : PLAN_LIMITS u.plan = some l)
    (hrej : jsGt (jsAddInt u.searches_used lim) l = true) :
    searchCore env det lim u = searchReject u l := by
  unfold searchCore
  rw [hpl]
  simp [hrej]

theorem search_eq_searchAdmitted (env : Env) (uid : Nat) (lp : JsNum) (det : Bool)
    (u : User) (nowY nowM : Int)
    (hnr : shouldReset nowY nowM u.resetYear u.resetMonth = false)
    (hadm : quotaAdmits (PLAN_LIMITS u.plan) u.searches_used (jsMin lp 25) = true) :
    search env ⟨some uid, lp, det⟩ (some u) nowY nowM =
      searchAdmitted env det (jsMin lp 25) u (PLAN_LIMITS u.plan) := by
  rw [search_some_eq, applyReset_eq_self u nowY nowM hnr,
    searchCore_eq_admitted env det (jsMin lp 25) u hadm]

theorem search_eq_reject (env : Env) (uid : Nat) (lp : JsNum) (det : Bool)
    (u : User) (nowY nowM l : Int)
    (hnr : shouldReset nowY nowM u.resetYear u.resetMonth = false)
    (hpl : PLAN_LIMITS u.plan = some l)
    (hrej : jsGt (jsAddInt u.searches_used (jsMin lp 25)) l = true) :
    search env ⟨some uid, lp, det⟩ (some u) nowY nowM = searchReject u l := by
  rw [search_some_eq, applyReset_eq_self u nowY nowM hnr,
    searchCore_eq_reject env det (jsMin lp 25) u l hpl hrej]

theorem searchAdmitted_success (env : Env) (details : Bool) (lim : JsNum)
    (u : User) (pl : Option Int) (c : Int × Int) (ps : List Place)
    (hg : env.geocode = .ok (some c)) (ht : env.textSearch = .ok ps) :
    searchAdmitted env details lim u pl =
      { status := 200, errMsg := none
        results := enrich env details (jsSlice0 ps lim)
        searches_remaining :=
          pl.map (fun l => l - (u.searches_used + ((jsSlice0 ps lim).length : Int)))
        dbUsed := some (u.searches_used + ((jsSlice0 ps lim).length : Int))
        providerCalls := 2 + (if details then (jsSlice0 ps lim).length else 0) } := by
  unfold searchAdmitted
  rw [hg, ht]

theorem searchAdmitted_dbUsed_of_fail (env : Env) (details : Bool) (lim : JsNum)
    (u : User) (pl : Option Int)
    (h : (searchAdmitted env details lim u pl).status ≠ 200) :
    (searchAdmitted env details lim u pl).dbUsed = some u.searches_used := by
  cases hg : env.geocode with
  | error e => simp [searchAdmitted, hg]
  | ok og =>
      cases og with
      | none => simp [searchAdmitted, hg]
      | some c =>
          cases ht : env.textSearch with
          | error e => simp [searchAdmitted, hg, ht]
          | ok ps =>
              exfalso
              apply h
              rw [searchAdmitted_success env details lim u pl c ps hg ht]

theorem enrich_length (env : Env) (details : Bool) (places : List Place) :
    (enrich env details places).length = places.length := by
  unfold enrich
  cases details <;> simp

theorem jsSlice0_length {α : Type} (xs : List α) (r : Int) (hr0 : 0 ≤ r) :
    (jsSlice0 xs (.int r)).length = min xs.length r.toNat := by
  simp only [jsSlice0]
  rw [if_neg (by omega), List.length_take, Nat.min_comm]

/-- C1: on a bounded plan (pro limit 1000, agency limit 2400) a /search
request with clamped requested count r is admitted — does not produce the
403 quota rejection — iff searches_used + r is at most the plan limit,
the boundary case searches_used + r = limit included; on an unbounded
tier (unlimited, admin) it is always admitted. -/
theorem c1_quota_admission (env : Env) (uid : Nat) (det : Bool) (u : User)
    (nowY nowM r : Int) (hr : r ≤ 25)
    (hnr : shouldReset nowY nowM u.resetYear u.resetMonth = false) :
    (u.plan = .pro →
      ((search env ⟨some uid, .int r, det⟩ (some u) nowY nowM).status ≠ 403 ↔
        u.searches_used + r ≤ 1000)) ∧
    (u.plan = .agency →
      ((search env ⟨some uid, .int r, det⟩ (some u) nowY nowM).status ≠ 403 ↔
        u.searches_used + r ≤ 2400)) ∧
    ((u.plan = .unlimited ∨ u.plan = .admin) →
      (search env ⟨some uid, .int r, det⟩ (some u) nowY nowM).status ≠ 403) := by
  have hmin : jsMin (.int r) 25 = .int r := by
    simp [jsMin, min_eq_left hr]
  have key : ∀ L : Int, PLAN_LIMITS u.plan = some L →
      ((search env ⟨some uid, .int r, det⟩ (some u) nowY nowM).status ≠ 403 ↔
        u.searches_used + r ≤ L) := by
    intro L hpl
    constructor
    · intro hne
      by_contra hgt
      push_neg at hgt
      have hrej : jsGt (jsAddInt u.searches_used (jsMin (.int r) 25)) L = true := by
        rw [hmin]
        simp [jsAddInt, jsGt]
        omega
      rw [search_eq_reject env uid (.int r) det u nowY nowM L hnr hpl hrej] at hne
      simp [searchReject] at hne
    · intro hle
      have hadm : quotaAdmits (PLAN_LIMITS u.plan) u.searches_used
          (jsMin (.int r) 25) = true := by
        rw [hpl, hmin]
        simp [quotaAdmits, jsAddInt, jsGt]
        omega
      rw [search_eq_searchAdmitted env uid (.int r) det u nowY nowM hnr hadm]
      rcases searchAdmitted_status env det (jsMin (.int r) 25) u (PLAN_LIMITS u.plan)
        with h | h | h <;> rw [h] <;> decide
  refine ⟨fun hp => key 1000 (by rw [hp]; rfl),
          fun hp => key 2400 (by rw [hp]; rfl),
          fun hp => ?_⟩
  have hpl : PLAN_LIMITS u.plan = none := by
    rcases hp with h | h <;> rw [h] <;> rfl
  have hadm : quotaAdmits (PLAN_LIMITS u.plan) u.searches_used
      (jsMin (.int r) 25) = true := by
    rw [hpl]; rfl
  rw [search_eq_searchAdmitted env uid (.int r) det u nowY nowM hnr hadm]
  rcases searchAdmitted_status env det (jsMin (.int r) 25) u (PLAN_LIMITS u.plan)
    with h | h | h <;> rw [h] <;> decide

/-- C1 witness: the boundary instance 990 used + 10 requested = 1000 on
the pro plan is admitted. -/
theorem c1_quota_admission_witness :
    (10 : Int) ≤ 25 ∧
    shouldReset 2025 9 userW.resetYear userW.resetMonth = false ∧
    ((search envW ⟨some 1, .int 10, true⟩ (some userW) 2025 9).status ≠ 403 ↔
      userW.searches_used + 10 ≤ 1000) :=
  ⟨by decide, by decide,
    (c1_quota_admission envW 1 true userW 2025 9 10 (by decide) (by decide)).1 rfl⟩

/-- C2: on the success path, the amount added to the stored searches_used
equals the number of leads in the response, which is the length of the
provider candidate list truncated to the clamped requested count r —
min of the provider count and r — and therefore less than r whenever the
provider returns fewer candidates than requested. -/
theorem c2_debit_equals_actual_count (env : Env) (uid : Nat) (det : Bool) (u : User)
    (nowY nowM r : Int) (ps : List Place) (c : Int × Int)
    (hr0 : 0 ≤ r) (hr : r ≤ 25)
    (hg : env.geocode = .ok (some c)) (ht : env.textSearch = .ok ps)
    (hnr : shouldReset nowY nowM u.resetYear u.resetMonth = false)
    (hadm : quotaAdmits (PLAN_LIMITS u.plan) u.searches_used (jsMin (.int r) 25) = true) :
    (search env ⟨some uid, .int r, det⟩ (some u) nowY nowM).status = 200 ∧
    (search env ⟨some uid, .int r, det⟩ (some u) nowY nowM).dbUsed =
      some (u.searches_used +
        (((search env ⟨some uid, .int r, det⟩ (some u) nowY nowM).results.length : Int))) ∧
    (search env ⟨some uid, .int r, det⟩ (some u) nowY nowM).results.length =
      min ps.length r.toNat := by
  have hmin : jsMin (.int r) 25 = .int r := by
    simp [jsMin, min_eq_left hr]
  rw [search_eq_searchAdmitted env uid (.int r) det u nowY nowM hnr hadm,
    searchAdmitted_success env det (jsMin (.int r) 25) u (PLAN_LIMITS u.plan) c ps hg ht]
  refine ⟨rfl, ?_, ?_⟩
  · simp [enrich_length]
  · rw [hmin]
    simp only [enrich_length]
    exact jsSlice0_length ps r hr0

/-- C2 witness: 10 leads requested, the provider returns only 3, and the
debit is 3, not 10. -/
theorem c2_debit_equals_actual_count_witness :
    (0 : Int) ≤ 10 ∧ (10 : Int) ≤ 25 ∧
    envW.geocode = .ok (some (33, -84)) ∧
    envW.textSearch = .ok placesW ∧
    shouldReset 2025 9 userW.resetYear userW.resetMonth = false ∧
    quotaAdmits (PLAN_LIMITS userW.plan) userW.searches_used (jsMin (.int 10) 25) = true ∧
    ((search envW ⟨some 1, .int 10, true⟩ (some userW) 2025 9).status = 200 ∧
     (search envW ⟨some 1, .int 10, true⟩ (some userW) 2025 9).dbUsed =
       some (userW.searches_used +
         (((search envW ⟨some 1, .int 10, true⟩ (some userW) 2025 9).results.length : Int))) ∧
     (search envW ⟨some 1, .int 10, true⟩ (some userW) 2025 9).results.length =
       min placesW.length (10 : Int).toNat) :=
  ⟨by decide, by decide, rfl, rfl, by decide, by decide,
    c2_debit_equals_actual_count envW 1 true userW 2025 9 10 placesW (33, -84)
      (by decide) (by decide) rfl rfl (by decide) (by decide)⟩

/-- C3: on every failure outcome of /search — any response status other
than 200: unauthorized, quota rejected, location not found, or a
transport or parse failure — the stored searches_used is unchanged, and
repeating the same request against the resulting row observes the same
value again. Stated for a row whose reset date is within the current
month, so that the lazy monthly reset does not fire. -/
theorem c3_no_debit_on_failure (env : Env) (req : Req) (u : User) (nowY nowM : Int)
    (hnr : shouldReset nowY nowM u.resetYear u.resetMonth = false)
    (hfail : (search env req (some u) nowY nowM).status ≠ 200) :
    (search env req (some u) nowY nowM).dbUsed = some u.searches_used ∧
    ∀ w : Int, (search env req (some u) nowY nowM).dbUsed = some w →
      (search env req (some { u with searches_used := w }) nowY nowM).dbUsed = some w := by
  have hmain : (search env req (some u) nowY nowM).dbUsed = some u.searches_used := by
    obtain ⟨auth, lp, det⟩ := req
    cases auth with
    | none => rfl
    | some uid =>
        rw [search_some_eq, applyReset_eq_self u nowY nowM hnr] at hfail ⊢
        cases hq : quotaAdmits (PLAN_LIMITS u.plan) u.searches_used (jsMin lp 25) with
        | true =>
            rw [searchCore_eq_admitted env det (jsMin lp 25) u hq] at hfail ⊢
            exact searchAdmitted_dbUsed_of_fail env det (jsMin lp 25) u
              (PLAN_LIMITS u.plan) hfail
        | false =>
            obtain ⟨l, hpl, hrej⟩ := quotaAdmits_of_false _ _ _ hq
            rw [searchCore_eq_reject env det (jsMin lp 25) u l hpl hrej]
            rfl
  refine ⟨hmain, fun w hw => ?_⟩
  rw [hmain] at hw
  have hw2 : u.searches_used = w := Option.some_inj.mp hw
  subst hw2
  have heq : ({ u with searches_used := u.searches_used } : User) = u := rfl
  rw [heq]
  exact hmain

/-- C3 witness: a location-not-found request (status 404) against a row
with 990 used leaves 990 in place, also on repetition. -/
theorem c3_no_debit_on_failure_witness :
    shouldReset 2025 9 userW.resetYear userW.resetMonth = false ∧
    (search envNF ⟨some 1, .int 10, true⟩ (some userW) 2025 9).status ≠ 200 ∧
    ((search envNF ⟨some 1, .int 10, true⟩ (some userW) 2025 9).dbUsed =
       some userW.searches_used ∧
     ∀ w : Int, (search envNF ⟨some 1, .int 10, true⟩ (some userW) 2025 9).dbUsed = some w →
       (search envNF ⟨some 1, .int 10, true⟩
         (some { userW with searches_used := w }) 2025 9).dbUsed = some w) :=
  ⟨by decide, by decide,
    c3_no_debit_on_failure envNF ⟨some 1, .int 10, true⟩ userW 2025 9
      (by decide) (by decide)⟩

/-- C4: with the details flag set, the success response carries exactly
one lead per truncated candidate, each produced independently from that
candidate alone: a candidate whose details call fails stays in the list
degraded to its summary fields — name, address, rating kept, phone and
website null — and a candidate whose details call succeeds is enriched
from its own detail record; the request as a whole succeeds with 200. -/
theorem c4_enrichment_degrades_per_candidate (env : Env) (uid : Nat) (u : User)
    (nowY nowM r : Int) (ps : List Place) (c : Int × Int)
    (hg : env.geocode = .ok (some c)) (ht : env.textSearch = .ok ps)
    (hnr : shouldReset nowY nowM u.resetYear u.resetMonth = false)
    (hadm : quotaAdmits (PLAN_LIMITS u.plan) u.searches_used (jsMin (.int r) 25) = true) :
    (search env ⟨some uid, .int r, true⟩ (some u) nowY nowM).status = 200 ∧
    (search env ⟨some uid, .int r, true⟩ (some u) nowY nowM).results =
      (jsSlice0 ps (jsMin (.int r) 25)).map (enrichOne env) ∧
    (search env ⟨some uid, .int r, true⟩ (some u) nowY nowM).results.length =
      (jsSlice0 ps (jsMin (.int r) 25)).length ∧
    (∀ p e, env.detail p = .error e →
      enrichOne env p = summaryLead p ∧
      (enrichOne env p).phone = none ∧
      (enrichOne env p).website = none ∧
      (enrichOne env p).businessName = p.name ∧
      (enrichOne env p).rating = ratingOrNull p.rating) ∧
    (∀ p d, env.detail p = .ok d → enrichOne env p = detailLead p d) := by
  rw [search_eq_searchAdmitted env uid (.int r) true u nowY nowM hnr hadm,
    searchAdmitted_success env true (jsMin (.int r) 25) u (PLAN_LIMITS u.plan) c ps hg ht]
  refine ⟨rfl, ?_, ?_, ?_, ?_⟩
  · simp [enrich]
  · simp [enrich_length]
  · intro p e he
    refine ⟨?_, ?_, ?_, ?_, ?_⟩ <;> simp [enrichOne, he, summaryLead]
  · intro p d hd
    simp [enrichOne, hd]

/-- C4 witness: three candidates, the details call fails for the second
only; the response has 3 leads, the second degraded with phone and
website null, the first and third enriched. -/
theorem c4_enrichment_degrades_per_candidate_witness :
    envW.geocode = .ok (some (33, -84)) ∧
    envW.textSearch = .ok placesW ∧
    shouldReset 2025 9 userW.resetYear userW.resetMonth = false ∧
    ((search envW ⟨some 1, .int 10, true⟩ (some userW) 2025 9).status = 200 ∧
     (search envW ⟨some 1, .int 10, true⟩ (some userW) 2025 9).results =
       (jsSlice0 placesW (jsMin (.int 10) 25)).map (enrichOne envW) ∧
     (search envW ⟨some 1, .int 10, true⟩ (some userW) 2025 9).results.length =
       (jsSlice0 placesW (jsMin (.int 10) 25)).length ∧
     (∀ p e, envW.detail p = .error e →
       enrichOne envW p = summaryLead p ∧
       (enrichOne envW p).phone = none ∧
       (enrichOne envW p).website = none ∧
       (enrichOne envW p).businessName = p.name ∧
       (enrichOne envW p).rating = ratingOrNull p.rating) ∧
     (∀ p d, envW.detail p = .ok d → enrichOne envW p = detailLead p d)) :=
  ⟨rfl, rfl, by decide,
    c4_enrichment_degrades_per_candidate envW 1 userW 2025 9 10 placesW (33, -84)
      rfl rfl (by decide) (by decide)⟩

/-- C5: a quota-rejected /search request issues no provider call: for
every request, stored row, wall clock and provider oracle, a 403
response comes with a provider call count of zero. -/
theorem c5_no_provider_call_on_reject (env : Env) (req : Req)
    (stored : Option User) (nowY nowM : Int)
    (h : (search env req stored nowY nowM).status = 403) :
    (search env req stored nowY nowM).providerCalls = 0 := by
  obtain ⟨auth, lp, det⟩ := req
  cases auth with
  | none => rfl
  | some uid =>
      cases stored with
      | none => rfl
      | some u0 =>
          rw [search_some_eq] at h ⊢
          cases hq : quotaAdmits (PLAN_LIMITS (applyReset u0 nowY nowM).plan)
              (applyReset u0 nowY nowM).searches_used (jsMin lp 25) with
          | true =>
              rw [searchCore_eq_admitted env det (jsMin lp 25) _ hq] at h
              rcases searchAdmitted_status env det (jsMin lp 25) (applyReset u0 nowY nowM)
                  (PLAN_LIMITS (applyReset u0 nowY nowM).plan) with h2 | h2 | h2 <;>
                rw [h2] at h <;> simp at h
          | false =>
              obtain ⟨l, hpl, hrej⟩ := quotaAdmits_of_false _ _ _ hq
              rw [searchCore_eq_reject env det (jsMin lp 25) _ l hpl hrej]
              rfl

/-- C5 witness: a pro account with 995 used requesting 10 is rejected
with 403 and zero provider calls. -/
theorem c5_no_provider_call_on_reject_witness :
    (search envW ⟨some 2, .int 10, true⟩ (some userR) 2025 9).status = 403 ∧
    (search envW ⟨some 2, .int 10, true⟩ (some userR) 2025 9).providerCalls = 0 :=
  ⟨by decide,
    c5_no_provider_call_on_reject envW ⟨some 2, .int 10, true⟩ (some userR) 2025 9
      (by decide)⟩

/-- C6 counterexample: with wall clock February 2025 (year 2025,
zero-based month 1) and a stored reset date in January 2026 (year 2026,
month 0), the rollover test fires — the month disjunct 1 > 0 holds — and
the usage is zeroed, although the current (year, month) is not
lexicographically greater than the stored one; so the claimed iff fails
on the code. -/
theorem c6_counterexample :
    shouldReset 2025 1 2026 0 = true ∧
    ¬((2026 : Int) < 2025 ∨ ((2026 : Int) = 2025 ∧ (0 : Int) < 1)) ∧
    (applyReset
      { id := 3, plan := .pro, searches_used := 7, resetYear := 2026, resetMonth := 0 }
      2025 1).searches_used = 0 := by decide

/-- C6 amended: on every read the usage is reset to 0 and the reset date
advanced to now iff the current year exceeds the stored year OR the
current month number exceeds the stored month number — a plain
disjunction, not the lexicographic comparison. Whenever the stored
(year, month) does not lie in the future the two conditions coincide; in
particular equal (year, month) never resets, and the reset is
idempotent. -/
theorem c6_lazy_reset_amended (u : User) (nowY nowM : Int)
    (hpast : u.resetYear < nowY ∨ (u.resetYear = nowY ∧ u.resetMonth ≤ nowM)) :
    (shouldReset nowY nowM u.resetYear u.resetMonth = true ↔
      (u.resetYear < nowY ∨ (u.resetYear = nowY ∧ u.resetMonth < nowM))) ∧
    (shouldReset nowY nowM u.resetYear u.resetMonth = false →
      applyReset u nowY nowM = u) ∧
    (shouldReset nowY nowM u.resetYear u.resetMonth = true →
      (applyReset u nowY nowM).searches_used = 0 ∧
      (applyReset u nowY nowM).resetYear = nowY ∧
      (applyReset u nowY nowM).resetMonth = nowM) ∧
    applyReset (applyReset u nowY nowM) nowY nowM = applyReset u nowY nowM := by
  have hself : shouldReset nowY nowM nowY nowM = false := by
    simp [shouldReset]
  refine ⟨?_, ?_, ?_, ?_⟩
  · simp only [shouldReset, Bool.or_eq_true, decide_eq_true_eq]
    omega
  · exact fun h => applyReset_eq_self u nowY nowM h
  · intro h
    refine ⟨?_, ?_, ?_⟩ <;> simp [applyReset, h]
  · cases h : shouldReset nowY nowM u.resetYear u.resetMonth with
    | false => rw [applyReset_eq_self u nowY nowM h, applyReset_eq_self u nowY nowM h]
    | true =>
        have h1 : applyReset u nowY nowM =
            { u with searches_used := 0, resetYear := nowY, resetMonth := nowM } := by
          simp [applyReset, h]
        rw [h1]
        exact applyReset_eq_self _ nowY nowM hself

/-- C6 witness: an October 2025 read of a row reset in September 2025
resets iff the disjunction holds, and the reset is idempotent. -/
theorem c6_lazy_reset_amended_witness :
    (userW.resetYear < 2025 ∨ (userW.resetYear = 2025 ∧ userW.resetMonth ≤ 10)) ∧
    ((shouldReset 2025 10 userW.resetYear userW.resetMonth = true ↔
       (userW.resetYear < 2025 ∨ (userW.resetYear = 2025 ∧ userW.resetMonth < 10))) ∧
     (shouldReset 2025 10 userW.resetYear userW.resetMonth = false →
       applyReset userW 2025 10 = userW) ∧
     (shouldReset 2025 10 userW.resetYear userW.resetMonth = true →
       (applyReset userW 2025 10).searches_used = 0 ∧
       (applyReset userW 2025 10).resetYear = 2025 ∧
       (applyReset userW 2025 10).resetMonth = 10) ∧
     applyReset (applyReset userW 2025 10) 2025 10 = applyReset userW 2025 10) :=
  ⟨by decide, c6_lazy_reset_amended userW 2025 10 (by decide)⟩

/-- C7 counterexample: a pro row with 1200 used is rejected and the 403
body carries searches_remaining -200: the code does not clamp the
remaining count at zero, contradicting the claim. -/
theorem c7_counterexample :
    (search envW ⟨some 4, .int 10, true⟩ (some userOver) 2025 9).status = 403 ∧
    (search envW ⟨some 4, .int 10, true⟩ (some userOver) 2025 9).searches_remaining =
      some (-200) ∧
    ¬((0 : Int) ≤ -200) := by decide

/-- C7 amended: every quota-rejected request on a bounded plan carries
searches_remaining = plan limit - searches_used with no clamping, so the
value is negative whenever searches_used exceeds the plan limit. -/
theorem c7_remaining_unclamped (env : Env) (uid : Nat) (lp : JsNum) (det : Bool)
    (u : User) (nowY nowM l : Int)
    (hnr : shouldReset nowY nowM u.resetYear u.resetMonth = false)
    (hpl : PLAN_LIMITS u.plan = some l)
    (hrej : jsGt (jsAddInt u.searches_used (jsMin lp 25)) l = true) :
    (search env ⟨some uid, lp, det⟩ (some u) nowY nowM).status = 403 ∧
    (search env ⟨some uid, lp, det⟩ (some u) nowY nowM).searches_remaining =
      some (l - u.searches_used) := by
  rw [search_eq_reject env uid lp det u nowY nowM l hnr hpl hrej]
  exact ⟨rfl, rfl⟩

/-- C7 witness: the rejected request of the counterexample instance
carries some (1000 - 1200). -/
theorem c7_remaining_unclamped_witness :
    shouldReset 2025 9 userOver.resetYear userOver.resetMonth = false ∧
    PLAN_LIMITS userOver.plan = some 1000 ∧
    jsGt (jsAddInt userOver.searches_used (jsMin (.int 10) 25)) 1000 = true ∧
    ((search envW ⟨some 4, .int 10, true⟩ (some userOver) 2025 9).status = 403 ∧
     (search envW ⟨some 4, .int 10, true⟩ (some userOver) 2025 9).searches_remaining =
       some (1000 - userOver.searches_used)) :=
  ⟨by decide, rfl, by decide,
    c7_remaining_unclamped envW 4 (.int 10) true userOver 2025 9 1000
      (by decide) rfl (by decide)⟩

/-- C8 counterexample: a request with a valid token whose user id has no
stored row gets status 401, not the claimed 404-class NotFound. -/
theorem c8_counterexample :
    (search envW ⟨some 7, .int 10, true⟩ none 2025 9).status = 401 ∧
    (search envW ⟨some 7, .int 10, true⟩ none 2025 9).status ≠ 404 := by decide

/-- C8 amended: a valid token whose account id no longer resolves to a
stored row yields a 401 response with error message User not found; the
sibling /auth/me route maps the same condition to 404, but /search does
not. -/
theorem c8_missing_account_is_401 (env : Env) (uid : Nat) (lp : JsNum) (det : Bool)
    (nowY nowM : Int) :
    (search env ⟨some uid, lp, det⟩ none nowY nowM).status = 401 ∧
    (search env ⟨some uid, lp, det⟩ none nowY nowM).errMsg = some "User not found" :=
  ⟨rfl, rfl⟩

/-- C9 counterexample: the 500 body for a geocode transport failure
carries exactly the internal error message, not a generic one. -/
theorem c9_counterexample :
    (search envErr ⟨some 1, .int 10, true⟩ (some userW) 2025 9).status = 500 ∧
    (search envErr ⟨some 1, .int 10, true⟩ (some userW) 2025 9).errMsg =
      some "ECONNRESET upstream socket diagnostic" := by decide

/-- C9 amended: a transport or parse failure of the geocode or
text-search call yields a 500 whose error field is exactly the thrown
error message — the internal message is surfaced to the client rather
than replaced by a generic one. -/
theorem c9_error_message_passthrough (env : Env) (uid : Nat) (lp : JsNum) (det : Bool)
    (u : User) (nowY nowM : Int) (m : String)
    (hnr : shouldReset nowY nowM u.resetYear u.resetMonth = false)
    (hadm : quotaAdmits (PLAN_LIMITS u.plan) u.searches_used (jsMin lp 25) = true) :
    (env.geocode = .error m →
      (search env ⟨some uid, lp, det⟩ (some u) nowY nowM).status = 500 ∧
      (search env ⟨some uid, lp, det⟩ (some u) nowY nowM).errMsg = some m) ∧
    (∀ c : Int × Int, env.geocode = .ok (some c) → env.textSearch = .error m →
      (search env ⟨some uid, lp, det⟩ (some u) nowY nowM).status = 500 ∧
      (search env ⟨some uid, lp, det⟩ (some u) nowY nowM).errMsg = some m) := by
  rw [search_eq_searchAdmitted env uid lp det u nowY nowM hnr hadm]
  constructor
  · intro hg
    unfold searchAdmitted
    rw [hg]
    exact ⟨rfl, rfl⟩
  · intro c hg ht
    unfold searchAdmitted
    rw [hg, ht]
    exact ⟨rfl, rfl⟩

/-- C9 witness: the geocode transport failure of envErr surfaces its
diagnostic string in the 500 body. -/
theorem c9_error_message_passthrough_witness :
    shouldReset 2025 9 userW.resetYear userW.resetMonth = false ∧
    quotaAdmits (PLAN_LIMITS userW.plan) userW.searches_used (jsMin (.int 10) 25) = true ∧
    envErr.geocode = .error "ECONNRESET upstream socket diagnostic" ∧
    ((search envErr ⟨some 1, .int 10, true⟩ (some userW) 2025 9).status = 500 ∧
     (search envErr ⟨some 1, .int 10, true⟩ (some userW) 2025 9).errMsg =
       some "ECONNRESET upstream socket diagnostic") :=
  ⟨by decide, by decide, rfl,
    (c9_error_message_passthrough envErr 1 (.int 10) true userW 2025 9
      "ECONNRESET upstream socket diagnostic" (by decide) (by decide)).1 rfl⟩

/-- C10: with a limit parameter that parses to NaN, the quota gate admits
the request regardless of plan and usage (the NaN comparison is false),
the candidate list is truncated to empty by slice, the response is a 200
with an empty result list, and the stored searches_used is unchanged —a
debit of exactly 0 — provided the geocode call resolves and the
text-search call succeeds. -/
theorem c10_nan_limit (env : Env) (uid : Nat) (det : Bool) (u : User)
    (nowY nowM : Int) (ps : List Place) (c : Int × Int)
    (hg : env.geocode = .ok (some c)) (ht : env.textSearch = .ok ps)
    (hnr : shouldReset nowY nowM u.resetYear u.resetMonth = false) :
    (search env ⟨some uid, .nan, det⟩ (some u) nowY nowM).status = 200 ∧
    (search env ⟨some uid, .nan, det⟩ (some u) nowY nowM).results = [] ∧
    (search env ⟨some uid, .nan, det⟩ (some u) nowY nowM).dbUsed =
      some u.searches_used := by
  have hadm : quotaAdmits (PLAN_LIMITS u.plan) u.searches_used (jsMin .nan 25) = true := by
    cases hpl : PLAN_LIMITS u.plan <;> simp [quotaAdmits, jsMin, jsAddInt, jsGt]
  rw [search_eq_searchAdmitted env uid .nan det u nowY nowM hnr hadm,
    searchAdmitted_success env det (jsMin .nan 25) u (PLAN_LIMITS u.plan) c ps hg ht]
  refine ⟨rfl, ?_, ?_⟩
  · simp [enrich, jsMin, jsSlice0]
  · simp [jsMin, jsSlice0]

/-- C10 witness: a NaN limit on a row already over its quota still gets
a 200 with no results and no debit. -/
theorem c10_nan_limit_witness :
    envW.geocode = .ok (some (33, -84)) ∧
    envW.textSearch = .ok placesW ∧
    shouldReset 2025 9 userOver.resetYear userOver.resetMonth = false ∧
    ((search envW ⟨some 4, .nan, true⟩ (some userOver) 2025 9).status = 200 ∧
     (search envW ⟨some 4, .nan, true⟩ (some userOver) 2025 9).results = [] ∧
     (search envW ⟨some 4, .nan, true⟩ (some userOver) 2025 9).dbUsed =
       some userOver.searches_used) :=
  ⟨rfl, rfl, by decide,
    c10_nan_limit envW 4 true userOver 2025 9 placesW (33, -84) rfl rfl (by decide)⟩

end MCAProxy
